import Mathlib

/-!
Shallow embedding of the MineRL connection & mission-lifecycle protocol engine
(`minerl/env/core.py` and `minerl/env/observations.py`).

The Python code is stateful and talks to a remote Minecraft process over a
socket.  We embed it as explicit state passing over an `EnvState` record; the
remote side (and the wall clock) is an explicit oracle argument: each
request/response exchange of the code takes the remote's answer (or a socket
failure) as an input, and every outgoing framed message is recorded in an
event trace.  JSON decoding and the length-prefixed transport are external
collaborators of the code, so the oracle delivers already-decoded payloads.
Python `float` values (reward, elapsed seconds) are modelled as `Rat`.
-/

namespace MineRL

deriving instance DecidableEq for Except

/-- Python exception classes that the embedded code raises or catches.
`sockError`/`sockTimeout` correspond to `socket.error` / `socket.timeout`
(both of which match the `except (socket.timeout, socket.error)` handlers). -/
inductive PyError
  | sockError
  | sockTimeout
  | runtimeError (msg : String)
  | missionInit (msg : String)
  | assertionError (msg : String)
  | keyError
  | indexError
  | valueError
  | typeError
deriving DecidableEq, Repr

/-- `MAX_WAIT = 80` from `core.py`. -/
def MAX_WAIT : Nat := 80

/-- `STEP_OPTIONS = 0` from `core.py`. -/
def STEP_OPTIONS : Nat := 0

/-- A processed pixel frame: `height` rows of `width` pixels of `depth` bytes. -/
abbrev Pix := List (List (List Nat))

/-- Split a flat list into consecutive chunks of `n` elements
(embedding of a numpy `reshape` level; fuel is the list length). -/
def chunkList (n : Nat) (xs : List α) : List (List α) :=
  go xs.length xs
where
  go : Nat → List α → List (List α)
    | 0, _ => []
    | _, [] => []
    | fuel + 1, ys => ys.take n :: go fuel (ys.drop n)

/-- `np.zeros((h, w, d), dtype=np.uint8)`. -/
def zerosPix (h w d : Nat) : Pix :=
  List.replicate h (List.replicate w (List.replicate d 0))

/-- `pov.reshape((h, w, d))[::-1, :, :]`: reshape the flat byte buffer and
flip vertically. -/
def flipReshape (bytes : List Nat) (h w d : Nat) : Pix :=
  let _ := h
  ((chunkList (w * d) bytes).map (chunkList d)).reverse

/-- One inventory stack of the JSON info payload: a dict that may or may not
carry `type` and `quantity` entries. -/
structure Stack where
  type_ : Option String
  quantity : Option Int
deriving DecidableEq, Repr

/-- The decoded JSON info payload (the parts the built-in handlers read).
`none` fields model absent keys. -/
structure InfoDict where
  inventory : Option (List Stack)
  compassAngle : Option Rat
deriving DecidableEq, Repr

/-- The info payload after `core.py` injects the processed frame under the
reserved key: `info['pov'] = pov`. -/
structure AugInfo where
  base : InfoDict
  pov : Pix
deriving DecidableEq, Repr

/-- A value of the structured observation dict. -/
inductive ObsVal
  | pix (p : Pix)
  | inv (d : List (String × Int))
  | num (q : Rat)
deriving DecidableEq, Repr

/-- The structured observation returned by `_process_observation`
(a Python dict, modelled as an insertion-ordered association list). -/
abbrev ObsDict := List (String × ObsVal)

/-! ## observations.py -/

/-- `pov_observation` from `observations.py`: raw pixel passthrough,
`info['pov']`. -/
def pov_observation (info : AugInfo) : ObsVal :=
  .pix info.pov

/-- The legacy alias in `inventory_observation`:
`if type_name == 'log2': type_name = 'log'`. -/
def aliasName (t : String) : String :=
  if t == "log2" then "log" else t

/-- One iteration of the stack loop of `inventory_observation`: skip stacks
missing `type`/`quantity`, alias `log2` to `log`, and add the quantity to the
running dict when (and only when) the aliased name is a declared key
(`except KeyError: continue`). -/
def addStack (d : List (String × Int)) (st : Stack) : List (String × Int) :=
  match st.type_, st.quantity with
  | some t, some q =>
      let tn := aliasName t
      if (d.map Prod.fst).contains tn then
        d.map (fun p => if p.1 == tn then (p.1, p.2 + q) else p)
      else d
  | _, _ => d

/-- `inventory_observation` from `observations.py`.  `spaces` is
`obs_space['inventory'].spaces` (its declared item names, in order); `none`
models an observation space without an `inventory` key, in which case the
subscript raises `KeyError`.  When the info payload has no `inventory` key the
zero-initialised dict is returned unchanged. -/
def inventory_observation (info : AugInfo) (spaces : Option (List String)) :
    Except PyError (List (String × Int)) :=
  match spaces with
  | none => .error .keyError
  | some keys =>
      let d0 : List (String × Int) := keys.map (fun k => (k, (0 : Int)))
      match info.base.inventory with
      | none => .ok d0
      | some sts => .ok (sts.foldl addStack d0)

/-- Modelled from the spec: `compass_observation` is imported by the core
module from `minerl.env.observations` but its definition is not under `src/`;
the spec describes it as "a placeholder compass-angle handler".  Modelled as
reading the compass angle from the info payload (a missing angle raises
`KeyError`, which the observation loop turns into an empty observation). -/
def compass_observation (info : AugInfo) : Except PyError ObsVal :=
  match info.base.compassAngle with
  | some a => .ok (.num a)
  | none => .error .keyError

/-! ## Environment state (`MineRLEnv` attributes used by the protocol) -/

/-- The mutable attributes of `MineRLEnv` that the protocol engine reads and
writes.  Sockets and instance handles are identified by numeric ids.
`seedV` is `self._seed`, `instanceH` is `self.instance`, and
`obsKeys`/`invSpaces` describe `self.observation_space.spaces` (its keys, and
the item names of its `inventory` sub-space when declared). -/
structure EnvState where
  done : Bool
  had_to_clean : Bool
  client_socket : Option Nat
  instanceH : Option Nat
  resets : Nat
  seedV : Option Int
  has_init : Bool
  exp_uid : String
  role : Nat
  agent_count : Nat
  synchronous : Bool
  height : Nat
  width : Nat
  depth : Nat
  obsKeys : List String
  invSpaces : Option (List String)
deriving DecidableEq, Repr

/-- Observable effects of the embedded code: framed messages sent to the
remote process, instance kills/launches, and sleeps. -/
inductive Event
  | send (msg : String)
  | sendXml
  | sendHello
  | kill (inst : Nat)
  | launch (inst : Nat)
  | sleepE
deriving DecidableEq, Repr

/-- `_process_observation` from `core.py`: decode the pixel buffer (`None`
raises `TypeError` in `np.frombuffer`; an empty buffer becomes a zero frame; a
length mismatch with `(height, width, depth)` raises `ValueError` in
`reshape`), decode the info blob (empty means the empty dict), inject the
frame under `pov`, then run the registered handler for every declared
observation key; a missing handler (or a handler raising `KeyError`) makes the
whole function return the empty dict.  The handler registry is modelled as the
three built-in `DEFAULT_OBS_HANDLERS`. -/
def process_observation (env : EnvState) (povRaw : Option (List Nat))
    (infoRaw : Option InfoDict) : Except PyError ObsDict :=
  match povRaw with
  | none => .error .typeError
  | some bytes =>
      let pixE : Except PyError Pix :=
        if bytes.isEmpty then .ok (zerosPix env.height env.width env.depth)
        else if bytes.length == env.height * env.width * env.depth then
          .ok (flipReshape bytes env.height env.width env.depth)
        else .error .valueError
      match pixE with
      | .error e => .error e
      | .ok pix =>
          let aug : AugInfo := { base := infoRaw.getD ⟨none, none⟩, pov := pix }
          obs_loop env aug env.obsKeys []
where
  /-- `handler_fn = self.obs_handlers[key]; obs_dict[key] = handler_fn(...)`
  for one key; an unregistered key is the registry's `KeyError`. -/
  apply_handler (env : EnvState) (aug : AugInfo) (key : String) :
      Except PyError ObsVal :=
    if key == "pov" then .ok (pov_observation aug)
    else if key == "inventory" then
      (inventory_observation aug env.invSpaces).map .inv
    else if key == "compassAngle" then compass_observation aug
    else .error .keyError
  /-- The `for key in obs_space` loop with its `except KeyError: return {}`. -/
  obs_loop (env : EnvState) (aug : AugInfo) :
      List String → ObsDict → Except PyError ObsDict
    | [], acc => .ok acc
    | key :: rest, acc =>
        match apply_handler env aug key with
        | .error .keyError => .ok []
        | .error e => .error e
        | .ok v => obs_loop env aug rest (acc ++ [(key, v)])

/-! ## Session tokens and protocol message texts (`core.py`) -/

/-- `str(self.synchronous).lower()`: Python renders booleans as
`True`/`False`, lowercased here. -/
def pyBoolLower (b : Bool) : String :=
  if b then "true" else "false"

/-- `_get_token` from `core.py`:
`self.exp_uid + ":" + str(self.role) + ":" + str(self.resets)`. -/
def get_token (env : EnvState) : String :=
  env.exp_uid ++ ":" ++ toString env.role ++ ":" ++ toString env.resets

/-- The token built inside `_init_mission`'s loop:
`_get_token() + ":" + str(agent_count) + ":" + str(synchronous).lower()`,
then `+= ":seed"` when a seed is set. -/
def init_mission_token (env : EnvState) : String :=
  let t := get_token env ++ ":" ++ toString env.agent_count ++ ":" ++
    pyBoolLower env.synchronous
  match env.seedV with
  | some s => t ++ ":" ++ toString s
  | none => t

/-- The payload of `_find_server`: `"<Find>" + self._get_token() + "</Find>"`. -/
def find_message (env : EnvState) : String :=
  "<Find>" ++ get_token env ++ "</Find>"

/-- The payload of `reinit`: `"<Init>" + self._get_token() + "</Init>"`. -/
def reinit_message (env : EnvState) : String :=
  "<Init>" ++ get_token env ++ "</Init>"

/-- The step envelope:
`"<Step" + str(STEP_OPTIONS) + ">" + command + "</Step" + str(STEP_OPTIONS) + " >"`. -/
def step_message (cmd : String) : String :=
  "<Step" ++ toString STEP_OPTIONS ++ ">" ++ cmd ++ "</Step" ++
    toString STEP_OPTIONS ++ " >"

/-! ## Instance relaunch and connection recovery (`core.py`) -/

/-- `_robust_launch_new_instance` from `core.py`: up to 3 attempts; attempt
`i`'s outcome is `launchF i` (`none` models `_attempt_launch_new_instance`
returning `None` after an `IntermittentBuildError`); all three failing raises
the fatal `RuntimeError`. -/
def robust_launch (launchF : Nat → Option Nat) : Except PyError Nat :=
  match launchF 0 with
  | some n => .ok n
  | none =>
      match launchF 1 with
      | some n => .ok n
      | none =>
          match launchF 2 with
          | some n => .ok n
          | none => .error (.runtimeError
              "Failed to build and launch Minecraft instance 3 times. Giving up.")

/-- `_clean_connection` from `core.py`: best-effort socket shutdown (errors
swallowed), clear the socket reference; then, if `had_to_clean` was already
set, kill the current instance (when present), launch a replacement, and clear
the flag — otherwise just set the flag.  Returns the new state, the
re-raisable error of a fatally failed relaunch, and the kill/launch trace. -/
def clean_connection (env : EnvState) (launchF : Nat → Option Nat) :
    EnvState × Except PyError Unit × List Event :=
  let env1 := { env with client_socket := none }
  if env1.had_to_clean then
    let killEvs : List Event :=
      match env1.instanceH with
      | some k => [.kill k]
      | none => []
    match robust_launch launchF with
    | .ok n =>
        ({ env1 with instanceH := some n, had_to_clean := false }, .ok (),
         killEvs ++ [.launch n])
    | .error e => (env1, .error e, killEvs)
  else
    ({ env1 with had_to_clean := true }, .ok (), [])

/-! ## Action marshalling (`_process_action`) -/

/-- A declared action-space component: an `Enum` with its ordered value list,
or a `Box` (continuous) space. -/
inductive ActSpace
  | enum (values : List String)
  | box
deriving DecidableEq, Repr

/-- A value supplied for one action component: a (numpy) integer, a string, a
flat numeric array, or a bare scalar. -/
inductive ActVal
  | int (i : Int)
  | str (s : String)
  | arr (xs : List Rat)
  | scalar (x : Rat)
deriving DecidableEq, Repr

/-- Python list subscripting `values[i]`: negative indices count from the end,
out-of-range raises `IndexError`. -/
def pyListIndex (values : List String) (i : Int) : Except PyError String :=
  let j := if i < 0 then i + values.length else i
  if 0 ≤ j ∧ j.toNat < values.length then .ok (values.getD j.toNat "")
  else .error .indexError

/-- One iteration of the `_process_action` loop: resolve the component against
its declared space (a missing declaration raises `KeyError`) and render it as
`"name value"`.  Enum integers index the value list; enum strings must be
members (assertion otherwise); any other enum value fails the `isinstance`
assertion.  Box values must not be strings; arrays render whitespace-joined. -/
def render_component (aspace : List (String × ActSpace)) (act : String)
    (v : ActVal) : Except PyError String :=
  match List.lookup act aspace with
  | none => .error .keyError
  | some (.enum values) =>
      match v with
      | .int i => (pyListIndex values i).map (fun s => act ++ " " ++ s)
      | .str s =>
          if values.contains s then .ok (act ++ " " ++ s)
          else .error (.assertionError "Invalid string value for enum action")
      | _ => .error (.assertionError "Enum action must be str or int.")
  | some .box =>
      match v with
      | .str _ => .error (.assertionError "Box action is a string!")
      | .int i => .ok (act ++ " " ++ toString i)
      | .scalar x => .ok (act ++ " " ++ toString x)
      | .arr xs => .ok (act ++ " " ++ String.intercalate " " (xs.map toString))

/-- `_process_action` from `core.py`: render every component of the action
dict in its insertion order and join the lines with a newline.  The first
failing component's exception propagates (the loop body runs left to right). -/
def process_action (aspace : List (String × ActSpace))
    (action : List (String × ActVal)) : Except PyError String :=
  (go action).map (String.intercalate "\n")
where
  go : List (String × ActVal) → Except PyError (List String)
    | [] => .ok []
    | (act, v) :: rest =>
        match render_component aspace act v with
        | .error e => .error e
        | .ok line => (go rest).map (line :: ·)

/-! ## The step protocol (`MineRLEnv.step`) -/

/-- The remote side of one step exchange: either a socket timeout / socket
error somewhere in the send/receive sequence, or the full reply — the raw
pixel buffer, the `(reward, done, sent)` tuple unpacked from the fixed-layout
message, and the decoded JSON info payload (`none` models the empty string). -/
inductive StepExchange
  | sockFail
  | reply (obs : List Nat) (reward : Rat) (doneFlag : Int) (sentFlag : Int)
      (info : Option InfoDict)
deriving DecidableEq, Repr

/-- The `(observation, reward, done, info)` tuple returned by `step`.  The
info dict maps string keys to string values (the only entry the code ever
puts there is the error marker). -/
structure StepResult where
  obs : ObsDict
  reward : Rat
  done : Bool
  info : List (String × String)
deriving DecidableEq, Repr

/-- `MineRLEnv.step` from `core.py`.  `sample` is the value that
`self.observation_space.sample()` would draw (an oracle: sampling is random);
`launchF` feeds a relaunch forced by `_clean_connection`.  Marshalling runs
before the `try` block, so its exceptions propagate and nothing is sent; a
`done` episode raises the contract-violation `RuntimeError` (not caught by the
socket handler) with nothing sent; a socket failure runs `_clean_connection`,
forces `done = True` and returns the degraded tuple — unless the relaunch
inside recovery fatally fails, in which case that `RuntimeError` propagates. -/
def step (env : EnvState) (aspace : List (String × ActSpace))
    (action : List (String × ActVal)) (wire : StepExchange) (sample : ObsDict)
    (launchF : Nat → Option Nat) :
    Except PyError StepResult × EnvState × List Event :=
  match process_action aspace action with
  | .error e => (.error e, env, [])
  | .ok cmd =>
      if env.done then
        (.error (.runtimeError "Attempted to step an environment with done=True"),
         env, [])
      else
        match wire with
        | .sockFail =>
            let c := clean_connection env launchF
            match c.2.1 with
            | .ok _ =>
                (.ok { obs := sample, reward := 0, done := true,
                       info := [("error", "Connection timed out!")] },
                 { c.1 with done := true },
                 .send (step_message cmd) :: c.2.2)
            | .error e2 =>
                (.error e2, c.1, .send (step_message cmd) :: c.2.2)
        | .reply obsB reward doneF _sentF infoO =>
            match process_observation env (some obsB) infoO with
            | .error e => (.error e, env, [.send (step_message cmd)])
            | .ok out_obs =>
                let env1 := { env with done := doneF == 1 }
                (.ok { obs := out_obs, reward := reward, done := env1.done,
                       info := [] },
                 env1, [.send (step_message cmd)])

/-! ## The initial peek (`_peek_obs`) -/

/-- The remote side of the peek exchange: a socket failure, or the raw pixel
buffer, decoded info payload, the one-byte completion flag, and the elapsed
wall-clock seconds `time.time() - start_time` at the empty-buffer check. -/
inductive PeekOracle
  | sockFail
  | reply (obs : List Nat) (info : Option InfoDict) (doneFlag : Int)
      (elapsed : Rat)
deriving DecidableEq, Repr

/-- `_peek_obs` from `core.py`.  With an active episode it sends `<Peek/>`
exactly once and receives buffer, info and completion flag.  An empty buffer
raises `MissionInitException` (closing the socket) only when the elapsed wait
already exceeds `MAX_WAIT`; otherwise the code sleeps 0.1s and falls through.
A completion flag of 1 raises the first-frame `RuntimeError`.  Otherwise the
observation is processed and returned.  When `done` is already true at entry
the exchange is skipped and `_process_observation(None, None)` raises
`TypeError` inside `np.frombuffer`. -/
def peek_obs (env : EnvState) (o : PeekOracle) :
    Except PyError ObsDict × EnvState × List Event :=
  if env.done then
    match process_observation env none none with
    | .error e => (.error e, env, [])
    | .ok v => (.ok v, env, [])
  else
    match o with
    | .sockFail => (.error .sockError, env, [.send "<Peek/>"])
    | .reply obsB infoO doneF elapsed =>
        let env1 := { env with done := doneF == 1 }
        if obsB.isEmpty then
          if elapsed > (MAX_WAIT : Rat) then
            (.error (.missionInit "too long waiting for first observation"),
             { env1 with client_socket := none }, [.send "<Peek/>"])
          else if env1.done then
            (.error (.runtimeError
               "Something went wrong resetting the environment! `done` was true on first frame."),
             env1, [.send "<Peek/>", .sleepE])
          else
            match process_observation env1 (some obsB) infoO with
            | .error e => (.error e, env1, [.send "<Peek/>", .sleepE])
            | .ok v => (.ok v, env1, [.send "<Peek/>", .sleepE])
        else if env1.done then
          (.error (.runtimeError
             "Something went wrong resetting the environment! `done` was true on first frame."),
           env1, [.send "<Peek/>"])
        else
          match process_observation env1 (some obsB) infoO with
          | .error e => (.error e, env1, [.send "<Peek/>"])
          | .ok v => (.ok v, env1, [.send "<Peek/>"])

/-! ## The mission-init handshake (`_init_mission`) -/

/-- The remote side of one iteration of the mission-init loop: the unpacked
acknowledgment (or a socket failure while exchanging), plus whether the
remote's log shows a `java.net.BindException` at that point. -/
structure InitIter where
  replyOk : Except PyError Nat
  bindInLog : Bool
deriving DecidableEq, Repr

/-- The `while ok != 1` loop of `_init_mission` from `core.py`: each iteration
sends the mission XML and the session token, and receives the acknowledgment.
A non-1 acknowledgment increments the retry counter; exceeding `MAX_WAIT`
raises `socket.timeout`; a bind-collision signature in the log sets
`had_to_clean` and raises `RuntimeError("Port is unusable")`; otherwise the
loop sleeps 1s and retries.  `none` models running out of oracle answers with
the loop still going. -/
def init_mission_go (env : EnvState) :
    List InitIter → Nat → List Event →
    Option (Except PyError Unit × EnvState × List Event)
  | [], _, _ => none
  | it :: rest, numRetries, evs =>
      let evs1 := evs ++ [.sendXml, .send (init_mission_token env)]
      match it.replyOk with
      | .error e => some (.error e, env, evs1)
      | .ok okv =>
          if okv == 1 then some (.ok (), env, evs1)
          else
            let n1 := numRetries + 1
            if n1 > MAX_WAIT then some (.error .sockTimeout, env, evs1)
            else if it.bindInLog then
              some (.error (.runtimeError "Port is unusable"),
                    { env with had_to_clean := true }, evs1)
            else init_mission_go env rest n1 (evs1 ++ [.sleepE])

/-- `_init_mission` (loop entered with `ok = 0`, `num_retries = 0`). -/
def init_mission (env : EnvState) (iters : List InitIter) :
    Option (Except PyError Unit × EnvState × List Event) :=
  init_mission_go env iters 0 []

/-! ## Reset (`reset`, `_start_up`, `_quit_episode`) -/

/-- The two `except` clauses of `_start_up` applied to an exception `e`:
socket timeouts/errors run `_clean_connection` and re-raise; `RuntimeError`
sets `had_to_clean` first, runs `_clean_connection`, and re-raises; every
other exception (e.g. `MissionInitException`) propagates untouched.  If the
relaunch inside `_clean_connection` itself fatally fails, that error replaces
the original one. -/
def startup_handle (env : EnvState) (launchF : Nat → Option Nat)
    (e : PyError) : PyError × EnvState × List Event :=
  if e = .sockError ∨ e = .sockTimeout then
    let c := clean_connection env launchF
    match c.2.1 with
    | .ok _ => (e, c.1, c.2.2)
    | .error e2 => (e2, c.1, c.2.2)
  else
    match e with
    | .runtimeError m =>
        let c := clean_connection { env with had_to_clean := true } launchF
        match c.2.1 with
        | .ok _ => (.runtimeError m, c.1, c.2.2)
        | .error e2 => (e2, c.1, c.2.2)
    | _ => (e, env, [])

/-- The remote-side answers consumed by one `_start_up` attempt: the outcome
of establishing the socket (fresh socket id, or a socket failure during
`connect`/`_hello`), the mission-init iterations, the peek exchange, and the
relaunch outcomes should recovery escalate. -/
structure AttemptOracle where
  sock : Except PyError Nat
  initM : List InitIter
  peek : PeekOracle
  launchF : Nat → Option Nat

/-- One attempt of `_start_up` from `core.py` (the body the `@retry`
decorator wraps): bump `resets`, connect + hello when no socket is stored,
run the mission-init handshake, clear `done`, and peek the first observation;
exceptions are routed through the two `except` clauses.  `none` models an
undetermined run (the init loop outliving its oracle). -/
def start_up_once (env0 : EnvState) (a : AttemptOracle) :
    Option (Except PyError ObsDict × EnvState × List Event) :=
  let env := { env0 with resets := env0.resets + 1 }
  let conn : Except PyError (EnvState × List Event) :=
    match env.client_socket with
    | some _ => .ok (env, [])
    | none =>
        match a.sock with
        | .ok sid => .ok ({ env with client_socket := some sid }, [.sendHello])
        | .error e => .error e
  match conn with
  | .error e =>
      let h := startup_handle env a.launchF e
      some (.error h.1, h.2.1, h.2.2)
  | .ok (env1, evs1) =>
      match init_mission env1 a.initM with
      | none => none
      | some (.error e, env2, evs2) =>
          let h := startup_handle env2 a.launchF e
          some (.error h.1, h.2.1, evs1 ++ evs2 ++ h.2.2)
      | some (.ok _, env2, evs2) =>
          let env3 := { env2 with done := false }
          let p := peek_obs env3 a.peek
          match p.1 with
          | .ok v => some (.ok v, p.2.1, evs1 ++ evs2 ++ p.2.2)
          | .error e =>
              let h := startup_handle p.2.1 a.launchF e
              some (.error h.1, h.2.1, evs1 ++ evs2 ++ p.2.2 ++ h.2.2)

/-- Modelled from the spec: the `retry` decorator on `_start_up` comes from
`minerl.env.comms`, which is not under `src/`; the spec describes it as an
outer bounded-retry wrapper re-running the procedure on exception up to a
fixed attempt budget and surfacing the final exception beyond it.  `budget` is
that attempt budget and `oracles k` feeds attempt `k`. -/
def retry_start_up (oracles : Nat → AttemptOracle) :
    Nat → Nat → EnvState →
    Option (Except PyError ObsDict × EnvState × List Event)
  | 0, _, _ => none
  | 1, k, env => start_up_once env (oracles k)
  | n + 2, k, env =>
      match start_up_once env (oracles k) with
      | none => none
      | some (.ok v, env1, evs) => some (.ok v, env1, evs)
      | some (.error _, env1, evs) =>
          (retry_start_up oracles (n + 1) (k + 1) env1).map
            (fun r => (r.1, r.2.1, evs ++ r.2.2))

/-- The outcome of `self.init()` (mission-XML parsing and templating, driven
by the file system and `lxml`, so an oracle here): failure with some
exception, or the fresh experiment uid and the frame geometry read from the
video producer declaration. -/
inductive InitOutcome
  | fail (e : PyError)
  | ok (exp_uid : String) (w h d : Nat)
deriving DecidableEq, Repr

/-- `init` from `core.py`, abstracted over the XML work: on success it stores
the experiment uid, forces `role = 0` and `agent_count = 1`, records the frame
geometry, and sets `has_init`. -/
def runInit (env : EnvState) (o : InitOutcome) : Except PyError EnvState :=
  match o with
  | .fail e => .error e
  | .ok u w h d =>
      .ok { env with exp_uid := u, role := 0, agent_count := 1,
                     width := w, height := h, depth := d, has_init := true }

/-- The `while not self.done` drain loop of `reset`: each iteration runs
`_quit_episode` (send `<Quit/>`, receive the 4-byte acknowledgment `okv`, new
`done` is `okv != 0`), sleeping 0.1s after an unsuccessful poll.  Exceptions
from the exchange propagate.  `none` models a loop that outlives its oracle
answers (the cooperative drain never finishing). -/
def quit_loop : EnvState → List (Except PyError Nat) → List Event →
    Option (Except PyError Unit × EnvState × List Event)
  | env, [], evs => if env.done then some (.ok (), env, evs) else none
  | env, o :: rest, evs =>
      if env.done then some (.ok (), env, evs)
      else
        let evs1 := evs ++ [.send "<Quit/>"]
        match o with
        | .error e => some (.error e, env, evs1)
        | .ok okv =>
            let d := okv != 0
            quit_loop { env with done := d } rest
              (if d then evs1 else evs1 ++ [.sleepE])

/-- All remote-side answers consumed by one `reset` call. -/
structure ResetOracle where
  initO : InitOutcome
  quitO : List (Except PyError Nat)
  budget : Nat
  attempts : Nat → AttemptOracle

/-- The body of `reset`'s `try` block: build the descriptor once
(`has_init` gate), drain any active episode, then run the retried
`_start_up`. -/
def reset_body (env : EnvState) (o : ResetOracle) :
    Option (Except PyError ObsDict × EnvState × List Event) :=
  match (if env.has_init then .ok env else runInit env o.initO :
         Except PyError EnvState) with
  | .error e => some (.error e, env, [])
  | .ok env1 =>
      match quit_loop env1 o.quitO [] with
      | none => none
      | some (.error e, env2, evs) => some (.error e, env2, evs)
      | some (.ok _, env2, evs) =>
          (retry_start_up o.attempts o.budget 0 env2).map
            (fun r => (r.1, r.2.1, evs ++ r.2.2))

/-- `reset` from `core.py`: the `try` body followed by the
`finally: self._seed = None` clause, which runs on the successful and on
every exceptional exit alike (`none` = the body never exits, so `finally`
never runs either). -/
def reset (env : EnvState) (o : ResetOracle) :
    Option (Except PyError ObsDict × EnvState × List Event) :=
  (reset_body env o).map (fun r => (r.1, { r.2.1 with seedV := none }, r.2.2))

/-! ## Shared concrete fixtures and counting helpers -/

/-- A concrete environment state: active episode, first failure not yet seen,
one stored socket, a `1×1×3` frame, a declared `pov` observation key. -/
def baseEnv : EnvState :=
  { done := false, had_to_clean := false, client_socket := some 1,
    instanceH := some 0, resets := 1, seedV := none, has_init := true,
    exp_uid := "e", role := 0, agent_count := 1, synchronous := true,
    height := 1, width := 1, depth := 3, obsKeys := ["pov"],
    invSpaces := none }

def isKill : Event → Bool
  | .kill _ => true
  | _ => false

def isLaunch : Event → Bool
  | .launch _ => true
  | _ => false

/-- Number of `kill` calls on the Instance Provider recorded in a trace. -/
def countKills (evs : List Event) : Nat :=
  (evs.filter isKill).length

/-- Number of `launch` calls on the Instance Provider recorded in a trace. -/
def countLaunches (evs : List Event) : Nat :=
  (evs.filter isLaunch).length

/-- Number of `<Peek/>` requests sent in a trace. -/
def countPeekSends (evs : List Event) : Nat :=
  (evs.filter (fun e => e == .send "<Peek/>")).length

/-- A concrete action space and action used by the step theorems' witnesses. -/
def exASpace : List (String × ActSpace) :=
  [("turn", .enum ["none", "left", "right"])]

def exAction : List (String × ActVal) :=
  [("turn", .str "left")]

def exSample : ObsDict :=
  [("pov", .pix (zerosPix 1 1 3))]

/-! ## C4 — the session token -/

/-- The token format the claim asserts for every session-context message:
`experiment_id:role:reset_count` with a trailing `:seed` exactly when a seed
is set.  This definition follows the claim's words, to be compared with
`init_mission_token`, which follows the code. -/
def claimed_token (env : EnvState) : String :=
  get_token env ++
    (match env.seedV with
     | some s => ":" ++ toString s
     | none => "")

/-- C4 counterexample: with `exp_uid = "e"`, `role = 0`, `resets = 1`,
`agent_count = 1`, `synchronous = true` and seed `42`, the token that
`_init_mission` actually sends is `"e:0:1:1:true:42"` — the agent count and
the synchronous flag are interposed between the reset count and the seed — so
it differs from the claimed `experiment_id:role:reset_count:seed` form
`"e:0:1:42"`. -/
theorem init_mission_token_counterexample :
    init_mission_token { baseEnv with seedV := some 42 } = "e:0:1:1:true:42" ∧
    claimed_token { baseEnv with seedV := some 42 } = "e:0:1:42" ∧
    init_mission_token { baseEnv with seedV := some 42 } ≠
      claimed_token { baseEnv with seedV := some 42 } := by
  refine ⟨by decide, by decide, by decide⟩

/-- Every token message the `_init_mission` loop sends (beyond those already
in the accumulator) is `init_mission_token env`. -/
theorem init_mission_go_sends (env : EnvState) :
    ∀ (iters : List InitIter) (n : Nat) (evs : List Event)
      (r : Except PyError Unit × EnvState × List Event),
      init_mission_go env iters n evs = some r →
      ∀ msg, Event.send msg ∈ r.2.2 →
        Event.send msg ∈ evs ∨ msg = init_mission_token env := by
  intro iters
  induction iters with
  | nil => intro n evs r h; simp [init_mission_go] at h
  | cons it rest ih =>
      intro n evs r h msg hmem
      have memStep : ∀ evs0 : List Event,
          Event.send msg ∈
            evs0 ++ [Event.sendXml, Event.send (init_mission_token env)] →
          Event.send msg ∈ evs0 ∨ msg = init_mission_token env := by
        intro evs0 hm0
        rcases List.mem_append.mp hm0 with h1 | h1
        · exact .inl h1
        · right; simpa using h1
      unfold init_mission_go at h
      rcases hrep : it.replyOk with e | okv <;> rw [hrep] at h <;>
        simp only [] at h
      · cases h
        exact memStep evs hmem
      · split at h
        · cases h
          exact memStep evs hmem
        · split at h
          · cases h
            exact memStep evs hmem
          · split at h
            · cases h
              exact memStep evs hmem
            · rcases ih (n + 1) _ r h msg hmem with h1 | h1
              · rcases List.mem_append.mp h1 with h2 | h2
                · exact memStep evs h2
                · simp at h2
              · exact .inr h1

/-- C4 (amended): the base session token is
`experiment_id:role:reset_count`; the `Find` and `Init` (reinit) messages
carry exactly this base token, never a seed; and every token message sent by
the mission-init handshake extends the base token with
`:agent_count:synchronous` and then a trailing `:seed` exactly when a seed
has been set. -/
theorem session_token_shapes (env : EnvState) (iters : List InitIter)
    (r : Except PyError Unit × EnvState × List Event)
    (h : init_mission env iters = some r) :
    (∀ msg, Event.send msg ∈ r.2.2 →
        msg = (env.exp_uid ++ ":" ++ toString env.role ++ ":" ++
               toString env.resets) ++ ":" ++ toString env.agent_count ++ ":" ++
              pyBoolLower env.synchronous ++
              (match env.seedV with
               | some s => ":" ++ toString s
               | none => "")) ∧
    find_message env = "<Find>" ++ (env.exp_uid ++ ":" ++ toString env.role ++
      ":" ++ toString env.resets) ++ "</Find>" ∧
    reinit_message env = "<Init>" ++ (env.exp_uid ++ ":" ++ toString env.role ++
      ":" ++ toString env.resets) ++ "</Init>" := by
  refine ⟨fun msg hmem => ?_, rfl, rfl⟩
  rcases init_mission_go_sends env iters 0 [] r h msg hmem with h1 | h1
  · simp at h1
  · rw [h1]
    unfold init_mission_token get_token
    cases env.seedV <;> simp [String.append_assoc]

/-- Witness for `session_token_shapes` at a concrete mission-init run with a
seed set. -/
theorem session_token_shapes_witness :
    (∀ msg, Event.send msg ∈
        [Event.sendXml, Event.send "e:0:1:1:true:42"] →
        msg = ("e" ++ ":" ++ toString (0 : Nat) ++ ":" ++ toString (1 : Nat)) ++
          ":" ++ toString (1 : Nat) ++ ":" ++ pyBoolLower true ++
          (match (some (42 : Int) : Option Int) with
           | some s => ":" ++ toString s
           | none => "")) ∧
    find_message { baseEnv with seedV := some 42 } = "<Find>" ++
      ("e" ++ ":" ++ toString (0 : Nat) ++ ":" ++ toString (1 : Nat)) ++
      "</Find>" ∧
    reinit_message { baseEnv with seedV := some 42 } = "<Init>" ++
      ("e" ++ ":" ++ toString (0 : Nat) ++ ":" ++ toString (1 : Nat)) ++
      "</Init>" :=
  session_token_shapes { baseEnv with seedV := some 42 } [⟨.ok 1, false⟩]
    (.ok (), { baseEnv with seedV := some 42 },
     [Event.sendXml, Event.send "e:0:1:1:true:42"]) (by decide)

/-! ## C5 — stepping a finished episode -/

/-- C5: for every action whose components marshal without error, calling
`step` while the episode-done flag is true raises the finished-episode
`RuntimeError` and sends no wire message (the event trace is empty),
whatever the remote side would have answered. -/
theorem step_done_contract_violation (env : EnvState)
    (aspace : List (String × ActSpace)) (action : List (String × ActVal))
    (wire : StepExchange) (sample : ObsDict) (launchF : Nat → Option Nat)
    (cmd : String)
    (hm : process_action aspace action = .ok cmd)
    (hd : env.done = true) :
    step env aspace action wire sample launchF =
      (.error (.runtimeError "Attempted to step an environment with done=True"),
       env, []) := by
  unfold step
  rw [hm]
  simp [hd]

/-- Witness for `step_done_contract_violation` on a finished episode. -/
theorem step_done_contract_violation_witness :
    process_action exASpace exAction = .ok "turn left" ∧
    ({ baseEnv with done := true } : EnvState).done = true ∧
    step { baseEnv with done := true } exASpace exAction .sockFail exSample
        (fun _ => none) =
      (.error (.runtimeError "Attempted to step an environment with done=True"),
       { baseEnv with done := true }, []) :=
  ⟨by decide, rfl,
   step_done_contract_violation { baseEnv with done := true } exASpace exAction
     .sockFail exSample (fun _ => none) "turn left" (by decide) rfl⟩

/-! ## C1 — degraded result on transport failure during step -/

/-- C1: if a socket timeout or socket error is raised during the step
exchange while `done = false` (and marshalling succeeded), `step` does not
propagate it: it runs `_clean_connection`, forces the episode-done flag to
true, and returns `(observation_space.sample(), 0, True,
\x7b"error": "Connection timed out!"\x7d)`.  The hypothesis `hc` states that the
recovery completed (its forced relaunch, when triggered, did not exhaust the
launch budget — the spec's separately documented fatal case). -/
theorem step_socket_failure_degraded_result (env : EnvState)
    (aspace : List (String × ActSpace)) (action : List (String × ActVal))
    (sample : ObsDict) (launchF : Nat → Option Nat) (cmd : String)
    (hm : process_action aspace action = .ok cmd)
    (hd : env.done = false)
    (hc : (clean_connection env launchF).2.1 = .ok ()) :
    step env aspace action .sockFail sample launchF =
      (.ok { obs := sample, reward := 0, done := true,
             info := [("error", "Connection timed out!")] },
       { (clean_connection env launchF).1 with done := true },
       .send (step_message cmd) :: (clean_connection env launchF).2.2) := by
  unfold step
  rw [hm]
  simp only [hd, Bool.false_eq_true, if_false]
  rw [hc]

/-- Witness for `step_socket_failure_degraded_result`: a concrete active
episode hit by a socket timeout. -/
theorem step_socket_failure_degraded_result_witness :
    process_action exASpace exAction = .ok "turn left" ∧
    baseEnv.done = false ∧
    (clean_connection baseEnv (fun _ => none)).2.1 = .ok () ∧
    step baseEnv exASpace exAction .sockFail exSample (fun _ => none) =
      (.ok { obs := exSample, reward := 0, done := true,
             info := [("error", "Connection timed out!")] },
       { (clean_connection baseEnv (fun _ => none)).1 with done := true },
       .send (step_message "turn left") ::
         (clean_connection baseEnv (fun _ => none)).2.2) :=
  ⟨by decide, rfl, by decide,
   step_socket_failure_degraded_result baseEnv exASpace exAction exSample
     (fun _ => none) "turn left" (by decide) rfl (by decide)⟩

/-! ## C10 — successful steps return an empty info map -/

/-- C10: on every successful (non-degraded) step — the wire exchange
delivered a full reply and the result is `ok` — the info component of the
returned tuple is the empty map, whatever JSON info payload the remote
sent. -/
theorem step_success_info_empty (env : EnvState)
    (aspace : List (String × ActSpace)) (action : List (String × ActVal))
    (obsB : List Nat) (reward : Rat) (doneF sentF : Int)
    (infoO : Option InfoDict) (sample : ObsDict) (launchF : Nat → Option Nat)
    (res : StepResult) (env1 : EnvState) (evs : List Event)
    (h : step env aspace action (.reply obsB reward doneF sentF infoO) sample
           launchF = (.ok res, env1, evs)) :
    res.info = [] := by
  unfold step at h
  cases hm : process_action aspace action with
  | error e => rw [hm] at h; simp at h
  | ok cmd =>
      rw [hm] at h
      by_cases hd : env.done
      · simp [hd] at h
      · simp only [hd, Bool.false_eq_true, if_false] at h
        cases hpo : process_observation env (some obsB) infoO with
        | error e => rw [hpo] at h; simp at h
        | ok out_obs =>
            rw [hpo] at h
            simp only [Prod.mk.injEq, Except.ok.injEq] at h
            rw [← h.1]

/-- Witness for `step_success_info_empty` at a concrete successful step. -/
theorem step_success_info_empty_witness :
    ({ obs := [("pov", ObsVal.pix [[[9, 8, 7]]])], reward := 5, done := false,
       info := [] } : StepResult).info = ([] : List (String × String)) :=
  step_success_info_empty baseEnv exASpace exAction [9, 8, 7] 5 0 1
    (some ⟨none, none⟩) exSample (fun _ => none)
    { obs := [("pov", ObsVal.pix [[[9, 8, 7]]])], reward := 5, done := false,
      info := [] }
    baseEnv [.send (step_message "turn left")] (by decide)

/-! ## C2 — the two-stage recovery escalator -/

/-- C2: `_clean_connection` is a two-stage escalator on `had_to_clean`.
Invoked with the flag clear it only drops the socket reference and sets the
flag (no kill, no launch, instance handle untouched); invoked again without
an intervening successful cycle it kills the current instance, replaces it
with a newly launched one, and clears the flag — so two consecutive failures
trigger exactly one kill and exactly one launch across both invocations. -/
theorem clean_connection_two_stage_escalator (env : EnvState)
    (f1 f2 : Nat → Option Nat) (k n : Nat)
    (h0 : env.had_to_clean = false)
    (hi : env.instanceH = some k)
    (hl : f2 0 = some n) :
    (clean_connection env f1).1.client_socket = none ∧
    (clean_connection env f1).1.had_to_clean = true ∧
    (clean_connection env f1).1.instanceH = some k ∧
    (clean_connection env f1).2.2 = [] ∧
    (clean_connection (clean_connection env f1).1 f2).1.had_to_clean = false ∧
    (clean_connection (clean_connection env f1).1 f2).1.instanceH = some n ∧
    (clean_connection (clean_connection env f1).1 f2).2.1 = .ok () ∧
    (clean_connection (clean_connection env f1).1 f2).2.2 =
      [.kill k, .launch n] ∧
    countKills ((clean_connection env f1).2.2 ++
      (clean_connection (clean_connection env f1).1 f2).2.2) = 1 ∧
    countLaunches ((clean_connection env f1).2.2 ++
      (clean_connection (clean_connection env f1).1 f2).2.2) = 1 := by
  have h1 : clean_connection env f1 =
      ({ env with client_socket := none, had_to_clean := true }, .ok (), []) := by
    unfold clean_connection
    simp [h0]
  rw [h1]
  have h2 : clean_connection
      { env with client_socket := none, had_to_clean := true } f2 =
      ({ env with client_socket := none, had_to_clean := false,
                  instanceH := some n }, .ok (), [.kill k, .launch n]) := by
    unfold clean_connection robust_launch
    simp [hi, hl]
  rw [h2]
  refine ⟨rfl, rfl, by simp [hi], rfl, rfl, rfl, rfl, rfl, rfl, rfl⟩

/-- Witness for `clean_connection_two_stage_escalator` at a concrete state. -/
theorem clean_connection_two_stage_escalator_witness :
    baseEnv.had_to_clean = false ∧
    baseEnv.instanceH = some 0 ∧
    (fun _ : Nat => some 7) 0 = some 7 ∧
    ((clean_connection baseEnv (fun _ => none)).1.client_socket = none ∧
     (clean_connection baseEnv (fun _ => none)).1.had_to_clean = true ∧
     (clean_connection baseEnv (fun _ => none)).1.instanceH = some 0 ∧
     (clean_connection baseEnv (fun _ => none)).2.2 = [] ∧
     (clean_connection (clean_connection baseEnv (fun _ => none)).1
        (fun _ => some 7)).1.had_to_clean = false ∧
     (clean_connection (clean_connection baseEnv (fun _ => none)).1
        (fun _ => some 7)).1.instanceH = some 7 ∧
     (clean_connection (clean_connection baseEnv (fun _ => none)).1
        (fun _ => some 7)).2.1 = .ok () ∧
     (clean_connection (clean_connection baseEnv (fun _ => none)).1
        (fun _ => some 7)).2.2 = [.kill 0, .launch 7] ∧
     countKills ((clean_connection baseEnv (fun _ => none)).2.2 ++
       (clean_connection (clean_connection baseEnv (fun _ => none)).1
          (fun _ => some 7)).2.2) = 1 ∧
     countLaunches ((clean_connection baseEnv (fun _ => none)).2.2 ++
       (clean_connection (clean_connection baseEnv (fun _ => none)).1
          (fun _ => some 7)).2.2) = 1) :=
  ⟨rfl, rfl, rfl,
   clean_connection_two_stage_escalator baseEnv (fun _ => none)
     (fun _ => some 7) 0 7 rfl rfl rfl⟩

/-! ## C3 — the initial peek does not poll -/

/-- C3 (code bug): `_peek_obs` never re-issues the peek request — every
possible run sends at most one `<Peek/>` — and on the concrete failing input
(empty pixel buffer, completion flag 0, elapsed wait 0s, well under
`MAX_WAIT`) it sends exactly one `<Peek/>`, sleeps once, and returns a
zero-filled observation instead of polling until a non-empty buffer arrives
or `MissionInitException` fires. -/
theorem peek_obs_single_shot_no_poll :
    (∀ (env : EnvState) (o : PeekOracle),
        countPeekSends (peek_obs env o).2.2 ≤ 1) ∧
    peek_obs baseEnv (.reply [] (some ⟨none, none⟩) 0 0) =
      (.ok [("pov", .pix (zerosPix 1 1 3))], baseEnv,
       [.send "<Peek/>", .sleepE]) := by
  constructor
  · intro env o
    unfold peek_obs
    by_cases hd : env.done
    · simp only [hd, if_true]
      split <;> simp [countPeekSends]
    · simp only [hd, Bool.false_eq_true, if_false]
      cases o with
      | sockFail => simp [countPeekSends]
      | reply obsB infoO doneF elapsed =>
          by_cases he : obsB.isEmpty <;>
            simp only [he, Bool.false_eq_true, if_true, if_false] <;>
            (repeat' split) <;> simp [countPeekSends]
  · decide

/-! ## C6 — completion flag set on the very first observation -/

/-- C6 counterexample: a peek reply whose pixel buffer is empty AND whose
completion flag is 1, arriving after an elapsed wait above `MAX_WAIT`
(reachable, since each receive may block up to the 240s socket timeout),
makes reset fail with `MissionInitException`, not with the claimed
"done true on first frame" `RuntimeError`. -/
theorem peek_done_first_frame_counterexample :
    (peek_obs baseEnv (.reply [] (some ⟨none, none⟩) 1 81)).1 =
      .error (.missionInit "too long waiting for first observation") ∧
    (peek_obs baseEnv (.reply [] (some ⟨none, none⟩) 1 81)).1 ≠
      .error (.runtimeError
        "Something went wrong resetting the environment! `done` was true on first frame.") := by
  refine ⟨by decide, by decide⟩

/-- C6 (amended): if the completion flag of the initial peek is 1 on the very
first observation — including when the pixel buffer is also empty, provided
the elapsed wait has not already exceeded `MAX_WAIT` (in which case the
empty-buffer `MissionInitException` takes precedence) — the peek fails with
the `RuntimeError` reporting that `done` was true on the first frame, and the
episode-done flag is left true. -/
theorem peek_done_first_frame_runtime_error (env : EnvState)
    (obsB : List Nat) (infoO : Option InfoDict) (elapsed : Rat)
    (hd : env.done = false)
    (h : obsB ≠ [] ∨ elapsed ≤ (MAX_WAIT : Rat)) :
    (peek_obs env (.reply obsB infoO 1 elapsed)).1 =
      .error (.runtimeError
        "Something went wrong resetting the environment! `done` was true on first frame.") ∧
    (peek_obs env (.reply obsB infoO 1 elapsed)).2.1.done = true := by
  unfold peek_obs
  simp only [hd, Bool.false_eq_true, if_false]
  by_cases he : obsB.isEmpty
  · have hel : ¬ elapsed > (MAX_WAIT : Rat) := by
      rcases h with h | h
      · exact absurd (List.isEmpty_iff.mp he) h
      · exact not_lt.mpr h
    simp [he, hel]
  · simp [he]

/-- Witness for `peek_done_first_frame_runtime_error`: a non-empty first
frame carrying completion flag 1. -/
theorem peek_done_first_frame_runtime_error_witness :
    baseEnv.done = false ∧
    (([0, 0, 0] : List Nat) ≠ [] ∨ (0 : Rat) ≤ (MAX_WAIT : Rat)) ∧
    ((peek_obs baseEnv (.reply [0, 0, 0] (some ⟨none, none⟩) 1 0)).1 =
        .error (.runtimeError
          "Something went wrong resetting the environment! `done` was true on first frame.") ∧
      (peek_obs baseEnv (.reply [0, 0, 0] (some ⟨none, none⟩) 1 0)).2.1.done =
        true) :=
  ⟨rfl, by decide,
   peek_done_first_frame_runtime_error baseEnv [0, 0, 0] (some ⟨none, none⟩) 0
     rfl (by decide)⟩

/-! ## C7 — action marshalling -/

/-- C7: enumerated components given as a (non-negative, in-range) integer
resolve to the value at that index of the enum's ordered value list; strings
must be members of that list; a value that is neither integer nor string
fails the `isinstance` assertion; every component renders as
`"name value"` and a multi-component action renders as the newline-joined
lines in the action dict's insertion order; in particular `turn: 1` over
`["none", "left", "right"]` yields the command line `"turn left"`. -/
theorem process_action_enum_rendering :
    (∀ (name : String) (values : List String) (i : Int),
        0 ≤ i → i.toNat < values.length →
        process_action [(name, .enum values)] [(name, .int i)] =
          .ok (name ++ " " ++ values.getD i.toNat "")) ∧
    (∀ (name : String) (values : List String) (s : String), s ∈ values →
        process_action [(name, .enum values)] [(name, .str s)] =
          .ok (name ++ " " ++ s)) ∧
    (∀ (name : String) (values : List String) (s : String), s ∉ values →
        process_action [(name, .enum values)] [(name, .str s)] =
          .error (.assertionError "Invalid string value for enum action")) ∧
    (∀ (name : String) (values : List String) (xs : List Rat),
        process_action [(name, .enum values)] [(name, .arr xs)] =
          .error (.assertionError "Enum action must be str or int.")) ∧
    (∀ (aspace : List (String × ActSpace)) (n1 n2 : String) (v1 v2 : ActVal)
        (l1 l2 : String),
        render_component aspace n1 v1 = .ok l1 →
        render_component aspace n2 v2 = .ok l2 →
        process_action aspace [(n1, v1), (n2, v2)] = .ok (l1 ++ "\n" ++ l2)) ∧
    process_action [("turn", .enum ["none", "left", "right"])]
        [("turn", .int 1)] = .ok "turn left" := by
  have hsingle : ∀ (l : String), String.intercalate "\n" [l] = l := by
    intro l; simp [String.intercalate, String.intercalate.go]
  have hpair : ∀ (l1 l2 : String),
      String.intercalate "\n" [l1, l2] = l1 ++ "\n" ++ l2 := by
    intro l1 l2; simp [String.intercalate, String.intercalate.go]
  refine ⟨?_, ?_, ?_, ?_, ?_, by decide⟩
  · intro name values i h0 hi
    unfold process_action process_action.go render_component pyListIndex
    simp [List.lookup, not_lt.mpr h0, h0, hi, hsingle, process_action.go,
          Except.map]
  · intro name values s hs
    unfold process_action process_action.go render_component
    simp [List.lookup, hs, hsingle, process_action.go, Except.map]
  · intro name values s hs
    unfold process_action process_action.go render_component
    simp only [List.lookup, beq_self_eq_true, if_true]
    rw [if_neg (by simpa using hs)]
    simp [process_action.go, Except.map]
  · intro name values xs
    unfold process_action process_action.go render_component
    simp [List.lookup, Except.map]
  · intro aspace n1 n2 v1 v2 l1 l2 h1 h2
    unfold process_action process_action.go
    rw [h1]
    unfold process_action.go
    rw [h2]
    simp [hpair, process_action.go, Except.map]

/-- Witness for `process_action_enum_rendering`: index 2 resolves to
`"right"`, and a two-component action renders in insertion order. -/
theorem process_action_enum_rendering_witness :
    process_action [("turn", .enum ["none", "left", "right"])]
        [("turn", .int 2)] =
      .ok ("turn" ++ " " ++ ["none", "left", "right"].getD (2 : Int).toNat "") ∧
    process_action exASpace [("turn", .str "left"), ("turn", .str "right")] =
      .ok ("turn left" ++ "\n" ++ "turn right") :=
  ⟨process_action_enum_rendering.1 "turn" ["none", "left", "right"] 2
     (by decide) (by decide),
   process_action_enum_rendering.2.2.2.2.1 exASpace "turn" "turn"
     (.str "left") (.str "right") "turn left" "turn right" (by decide)
     (by decide)⟩

/-! ## C9 — seeds are single-shot -/

/-- C9: every `reset` call that exits (successfully or exceptionally) clears
the per-episode seed — the `finally` clause sets `self._seed = None` on every
exit path, so a seed affects at most the next reset attempt cycle. -/
theorem reset_clears_seed (env : EnvState) (o : ResetOracle)
    (r : Except PyError ObsDict × EnvState × List Event)
    (h : reset env o = some r) :
    r.2.1.seedV = none := by
  unfold reset at h
  cases hb : reset_body env o with
  | none => rw [hb] at h; simp at h
  | some b =>
      rw [hb] at h
      simp only [Option.map_some', Option.some.injEq] at h
      subst h
      rfl

/-- A concrete environment and oracle for a full successful reset run: seed
set to 7, previous episode already done, socket present, mission-init
acknowledged on the first try, first peeked frame non-empty with completion
flag 0. -/
def exEnv9 : EnvState :=
  { baseEnv with seedV := some 7, done := true }

def exResetOracle : ResetOracle :=
  { initO := .ok "u" 1 1 3,
    quitO := [],
    budget := 1,
    attempts := fun _ =>
      { sock := .ok 5, initM := [⟨.ok 1, false⟩],
        peek := .reply [0, 0, 0] (some ⟨none, none⟩) 0 0,
        launchF := fun _ => none } }

/-- Witness for `reset_clears_seed`: the concrete run terminates and its
final state's seed is cleared. -/
theorem reset_clears_seed_witness :
    (reset exEnv9 exResetOracle).map (fun r => r.2.1.seedV) = some none := by
  cases hr : reset exEnv9 exResetOracle with
  | none => exact absurd hr (by decide)
  | some r =>
      simp only [Option.map_some']
      exact congrArg some (reset_clears_seed exEnv9 exResetOracle r hr)

/-! ## C8 — inventory aggregation -/

/-- A stack counts towards item `k` when it carries both fields and its
aliased type name is `k`. -/
def stackMatches (k : String) (st : Stack) : Bool :=
  match st.type_, st.quantity with
  | some t, some _ => aliasName t == k
  | _, _ => false

/-- The sum of `quantity` over the stacks counting towards item `k`. -/
def specInvSum (k : String) (sts : List Stack) : Int :=
  ((sts.filter (stackMatches k)).map (fun st => st.quantity.getD 0)).sum

theorem addStack_keys (d : List (String × Int)) (st : Stack) :
    (addStack d st).map Prod.fst = d.map Prod.fst := by
  obtain ⟨ot, oq⟩ := st
  cases ot with
  | none => rfl
  | some t =>
      cases oq with
      | none => rfl
      | some q =>
          unfold addStack
          simp only []
          split
          · rw [List.map_map]
            apply List.map_congr_left
            intro p _
            simp only [Function.comp_apply]
            split <;> rfl
          · rfl

theorem lookup_mapUpdate (d : List (String × Int)) (tn : String) (q : Int)
    (k : String) :
    List.lookup k (d.map (fun p => if p.1 == tn then (p.1, p.2 + q) else p)) =
      (List.lookup k d).map (fun v => if k == tn then v + q else v) := by
  induction d with
  | nil => rfl
  | cons a d ih =>
      obtain ⟨ak, av⟩ := a
      simp only [List.map_cons]
      by_cases ha : (ak == tn) = true
      · rw [if_pos ha]
        by_cases hk : (k == ak) = true
        · have hke : k = ak := by simpa using hk
          have hkt : (k == tn) = true := by rw [hke]; exact ha
          simp [List.lookup, hk, hkt]
        · simp [List.lookup, hk]
          simpa using ih
      · rw [if_neg ha]
        by_cases hk : (k == ak) = true
        · have hke : k = ak := by simpa using hk
          have hkt : (k == tn) = false := by
            rw [hke]; simpa using ha
          simp [List.lookup, hk, hkt]
        · simp [List.lookup, hk]
          simpa using ih

theorem lookup_addStack (d : List (String × Int)) (st : Stack) (k : String)
    (hk : k ∈ d.map Prod.fst) :
    List.lookup k (addStack d st) =
      (List.lookup k d).map
        (fun v => v + if stackMatches k st then st.quantity.getD 0 else 0) := by
  obtain ⟨ot, oq⟩ := st
  cases ot with
  | none =>
      simp [addStack, stackMatches]
  | some t =>
      cases oq with
      | none => simp [addStack, stackMatches]
      | some q =>
          unfold addStack stackMatches
          simp only []
          by_cases htn : aliasName t == k
          · have htn' : aliasName t = k := by simpa using htn
            have hcont : (d.map Prod.fst).contains (aliasName t) = true := by
              rw [htn']
              exact List.elem_eq_true_of_mem hk
            rw [if_pos hcont, lookup_mapUpdate]
            have hkk : (k == aliasName t) = true := by simp [htn']
            simp [hkk, htn]
          · have hkk : (k == aliasName t) = false := by
              have hne : ¬ k = aliasName t := fun hc => htn (by simp [hc])
              simpa using hne
            by_cases hcont : (d.map Prod.fst).contains (aliasName t)
            · rw [if_pos hcont, lookup_mapUpdate]
              simp [hkk, htn]
            · rw [if_neg hcont]
              simp [htn]

theorem foldl_addStack_keys (sts : List Stack) (d : List (String × Int)) :
    (sts.foldl addStack d).map Prod.fst = d.map Prod.fst := by
  induction sts generalizing d with
  | nil => rfl
  | cons st rest ih => rw [List.foldl_cons, ih, addStack_keys]

theorem lookup_foldl_addStack (sts : List Stack) (d : List (String × Int))
    (k : String) (v : Int) (hk : k ∈ d.map Prod.fst)
    (hv : List.lookup k d = some v) :
    List.lookup k (sts.foldl addStack d) = some (v + specInvSum k sts) := by
  induction sts generalizing d v with
  | nil => simp [specInvSum, hv]
  | cons st rest ih =>
      have hk' : k ∈ (addStack d st).map Prod.fst := by
        rw [addStack_keys]; exact hk
      have hv' : List.lookup k (addStack d st) =
          some (v + if stackMatches k st then st.quantity.getD 0 else 0) := by
        rw [lookup_addStack d st k hk, hv]; rfl
      rw [List.foldl_cons, ih _ _ hk' hv']
      by_cases hm : stackMatches k st <;>
        (simp [specInvSum, hm]; try omega)

theorem lookup_zero_init (keys : List String) (k : String) (hk : k ∈ keys) :
    List.lookup k (keys.map (fun k0 => (k0, (0 : Int)))) = some 0 := by
  induction keys with
  | nil => cases hk
  | cons a rest ih =>
      by_cases h : k == a
      · simp [List.lookup, h]
      · rcases List.mem_cons.mp hk with h1 | h1
        · subst h1
          simp at h
        · simp [List.lookup, h, ih h1]

/-- C8: for an info payload carrying inventory stacks, the inventory handler
returns a dict over exactly the declared item names, and every declared item
`k` maps to the sum of `quantity` over the stacks whose (log2-to-log aliased)
`type` equals `k` — stacks of undeclared types contribute nowhere. -/
theorem map_fst_zero_init (keys : List String) :
    (keys.map (fun k0 => (k0, (0 : Int)))).map Prod.fst = keys := by
  induction keys with
  | nil => rfl
  | cons a r ih => simp only [List.map_cons, ih]

theorem inventory_observation_sums (keys : List String) (sts : List Stack)
    (info : AugInfo) (k : String)
    (hinv : info.base.inventory = some sts)
    (hk : k ∈ keys) :
    (inventory_observation info (some keys)).map (fun d => d.map Prod.fst) =
      .ok keys ∧
    (inventory_observation info (some keys)).map (fun d => List.lookup k d) =
      .ok (some (specInvSum k sts)) := by
  have hrun : inventory_observation info (some keys) =
      .ok (sts.foldl addStack (keys.map (fun k0 => (k0, (0 : Int))))) := by
    unfold inventory_observation
    rw [hinv]
  have hkeys0 := map_fst_zero_init keys
  constructor
  · rw [hrun]
    simp only [Except.map]
    rw [foldl_addStack_keys, hkeys0]
  · rw [hrun]
    simp only [Except.map]
    have hkm : k ∈ (keys.map (fun k0 => (k0, (0 : Int)))).map Prod.fst := by
      rw [hkeys0]; exact hk
    rw [lookup_foldl_addStack sts _ k 0 hkm (lookup_zero_init keys k hk)]
    simp

/-- Witness for `inventory_observation_sums`: declared items `[log, dirt]`
with stacks `[(log2, 3), (dirt, 5)]` yield the dict `[(log, 3), (dirt, 5)]`,
and the theorem instantiates to the `log` entry being 3. -/
theorem inventory_observation_sums_witness :
    inventory_observation
        ⟨⟨some [⟨some "log2", some 3⟩, ⟨some "dirt", some 5⟩], none⟩, []⟩
        (some ["log", "dirt"]) = .ok [("log", 3), ("dirt", 5)] ∧
    ((inventory_observation
        ⟨⟨some [⟨some "log2", some 3⟩, ⟨some "dirt", some 5⟩], none⟩, []⟩
        (some ["log", "dirt"])).map (fun d => d.map Prod.fst) =
      .ok ["log", "dirt"] ∧
     (inventory_observation
        ⟨⟨some [⟨some "log2", some 3⟩, ⟨some "dirt", some 5⟩], none⟩, []⟩
        (some ["log", "dirt"])).map (fun d => List.lookup "log" d) =
      .ok (some (specInvSum "log"
        [⟨some "log2", some 3⟩, ⟨some "dirt", some 5⟩]))) :=
  ⟨by decide,
   inventory_observation_sums ["log", "dirt"]
     [⟨some "log2", some 3⟩, ⟨some "dirt", some 5⟩]
     ⟨⟨some [⟨some "log2", some 3⟩, ⟨some "dirt", some 5⟩], none⟩, []⟩ "log"
     rfl (by decide)⟩

end MineRL
